import Mathlib

/-!
# Verification of the dataset-management platform's profiling engine

A shallow embedding, in Lean 4, of the data-quality and profiling engine of
the repository (files `backend/app/services/quality_analyzer.py`,
`backend/app/services/data_profiler.py`, `backend/app/services/csv_parser.py`).

Modelling conventions:
* A cell of a loaded table is `Cell.null` (pandas `NaN`), `Cell.num q`
  (a numeric value, modelled as a rational), or `Cell.str s` (a text value).
  Non-finite floating values are treated separately (see the `XF` section).
* Python `round(x, 2)` is modelled by `roundQ` (round half to even at two
  decimal places, on rationals).
* A pandas column has dtype `object` exactly when it is empty or contains a
  text cell; otherwise it is a numeric dtype.  `pd.to_numeric(.., errors
  = coerce)` on a text cell is modelled by `parseNumeric` (optional sign,
  decimal digits, optional fractional part; scientific notation is out of
  scope for the claims below, whose text cells are plain).
* The `try/except` wrapper around a single column's analysis is modelled by
  an explicit failure oracle `fail : String → Option String`: `fail name =
  some e` means the body of the analysis of column `name` raised an
  exception rendered as the message `e`, and `none` means it completed.
* Reading the CSV file is modelled by a `LoadResult` handed to the
  entry points: the successfully loaded table, a missing file
  (`FileNotFoundError`), or any other load failure with its message.
-/

-- Batteries seals the rational-number operations; reopening them lets
-- concrete evaluations of the embedded engine go through `decide`.
set_option allowUnsafeReducibility true in
attribute [semireducible] Rat.add Rat.mul Rat.sub Rat.inv

/-- A single tabular cell as produced by `pd.read_csv`: an explicit null
(pandas `NaN`), a numeric value, or a text value. -/
inductive Cell where
  | null : Cell
  | num (q : Rat) : Cell
  | str (s : String) : Cell
deriving DecidableEq, Repr

/-- A loaded table: the ordered list of named columns (`pd.DataFrame`),
each column its ordered list of cells. -/
structure Table where
  cols : List (String × List Cell)
deriving DecidableEq, Repr

/-- Row count of a table, `len(df)`: the length of its first column
(0 for a table without columns). -/
def nRows (t : Table) : Nat :=
  match t.cols with
  | [] => 0
  | c :: _ => c.2.length

/-- `df.empty`: true when the table has zero rows or zero columns. -/
def isEmptyT (t : Table) : Bool :=
  nRows t = 0 || t.cols.isEmpty

/-- Numeric value of a list of decimal digit characters. -/
def digitsVal (cs : List Char) : Nat :=
  cs.foldl (fun a c => a * 10 + (c.toNat - '0'.toNat)) 0

/-- The unsigned part of `parseNumeric`: decimal digits with an optional
single decimal point, as accepted by Python float conversion
(`"5"`, `"5."`, `".5"`, `"5.25"`; the empty string and `"."` are rejected). -/
def parseUnsigned (cs : List Char) : Option Rat :=
  let intPart := cs.takeWhile Char.isDigit
  let rest := cs.dropWhile Char.isDigit
  match rest with
  | [] => if intPart.isEmpty then none else some (digitsVal intPart)
  | '.' :: frac =>
      if frac.all Char.isDigit && !(intPart.isEmpty && frac.isEmpty) then
        some ((digitsVal intPart : Rat) + (digitsVal frac : Rat) / (10 ^ frac.length : Nat))
      else none
  | _ => none

/-- Model of `pd.to_numeric(s, errors="coerce")` on a single text value:
the parsed number, or `none` (pandas `NaN`) when the text does not parse.
In particular the empty string does not parse. -/
def parseNumeric (s : String) : Option Rat :=
  match s.toList with
  | '-' :: rest => (parseUnsigned rest).map (fun q => -q)
  | '+' :: rest => parseUnsigned rest
  | cs => parseUnsigned cs

/-- Numeric coercion of one cell (`pd.to_numeric` element-wise):
nulls stay null, numbers are unchanged, text is parsed. -/
def Cell.toNumeric : Cell → Option Rat
  | .null => none
  | .num q => some q
  | .str s => parseNumeric s

/-- Is the cell a null (pandas `isnull`)? -/
def Cell.isNull : Cell → Bool
  | .null => true
  | _ => false

/-- The non-null cells of a column (`series.dropna()`). -/
def nonNullCells (cells : List Cell) : List Cell :=
  cells.filter (fun c => !c.isNull)

/-- The coerced numeric values of a column, nulls and unparsable text
dropped (`pd.to_numeric(series, errors="coerce").dropna()`).  Order of
the surviving values is the column order, as in pandas. -/
def coercedValues (cells : List Cell) : List Rat :=
  cells.filterMap Cell.toNumeric

/-- Number of null cells (`series.isnull().sum()`). -/
def nullCountOf (cells : List Cell) : Nat :=
  cells.countP Cell.isNull

/-- dtype test: a pandas column loaded by `read_csv` has dtype `object`
exactly when it is empty or holds a text cell; otherwise its dtype is
numeric (`int64`/`float64`). -/
def isObjectDtype (cells : List Cell) : Bool :=
  cells.isEmpty || cells.any (fun c => match c with | .str _ => true | _ => false)

/-- `pd.api.types.is_numeric_dtype(series)` under the dtype model above. -/
def isNumericDtype (cells : List Cell) : Bool :=
  !isObjectDtype cells

/-- `str(series.dtype)` under the dtype model: `object` for text columns,
`int64` for whole-number columns without nulls, `float64` otherwise. -/
def dtypeName (cells : List Cell) : String :=
  if isObjectDtype cells then "object"
  else if cells.all (fun c => match c with | .num q => q.den = 1 | _ => false) then "int64"
  else "float64"

/-- Structural worker for `uniqueInOrder`, with an explicit fuel bound
(the fuel never runs out when it starts at the list length). -/
def uniqueInOrderAux : Nat → List Cell → List Cell
  | _, [] => []
  | 0, _ :: _ => []
  | fuel + 1, a :: l => a :: uniqueInOrderAux fuel (l.filter (fun b => b ≠ a))

/-- The distinct values of a list in order of first appearance
(pandas `unique`). -/
def uniqueInOrder (l : List Cell) : List Cell :=
  uniqueInOrderAux l.length l

/-- `series.nunique()`: number of distinct non-null values. -/
def nuniqueOf (cells : List Cell) : Nat :=
  (uniqueInOrder (nonNullCells cells)).length

/-- Round half to even on integers-in-disguise: the integer nearest to
`x`, ties to the even integer (the behaviour of Python `round`). -/
def rhe (x : Rat) : Int :=
  if x - ⌊x⌋ < 1/2 then ⌊x⌋
  else if 1/2 < x - ⌊x⌋ then ⌊x⌋ + 1
  else if ⌊x⌋ % 2 = 0 then ⌊x⌋ else ⌊x⌋ + 1

/-- Model of Python `round(x, 2)`: round half to even at two decimals. -/
def roundQ (x : Rat) : Rat :=
  (rhe (x * 100) : Rat) / 100

/-- Linear-interpolation quantile over a list of numeric values
(`Series.quantile(p)`, numpy `linear` method): sort ascending, take
`h = p * (n - 1)`, and interpolate between the neighbouring order
statistics.  Only called on non-empty lists. -/
def quantileLinear (l : List Rat) (p : Rat) : Rat :=
  let s := l.insertionSort (fun a b => a ≤ b)
  let n := s.length
  let h := p * ((n : Rat) - 1)
  let i := (⌊h⌋).toNat
  let lo := s.getD i 0
  let hi := s.getD (i + 1) lo
  lo + (h - (i : Rat)) * (hi - lo)

/-- The dict returned by `AdvancedQualityAnalyzer.detect_outliers_iqr`. -/
structure OutlierIqr where
  outlierCount : Nat
  outlierPercentage : Rat
  lowerBound : Option Rat
  upperBound : Option Rat
  outliers : List Rat
deriving DecidableEq, Repr

/-- `AdvancedQualityAnalyzer.detect_outliers_iqr(series, multiplier)`:
IQR outlier statistics over the coerced numeric values of a column.
`lower_bound`/`upper_bound` are returned unrounded; the example list is
capped at 10 values; the percentage is relative to the coerced count. -/
def detectOutliersIqr (cells : List Cell) (multiplier : Rat) : OutlierIqr :=
  let numeric := coercedValues cells
  if numeric.length = 0 then
    { outlierCount := 0, outlierPercentage := 0, lowerBound := none
      upperBound := none, outliers := [] }
  else
    let q1 := quantileLinear numeric (1/4)
    let q3 := quantileLinear numeric (3/4)
    let iqr := q3 - q1
    let lowerBound := q1 - multiplier * iqr
    let upperBound := q3 + multiplier * iqr
    let outliers := numeric.filter (fun x => x < lowerBound || upperBound < x)
    { outlierCount := outliers.length
      outlierPercentage := roundQ ((outliers.length : Rat) / (numeric.length : Rat) * 100)
      lowerBound := some lowerBound
      upperBound := some upperBound
      outliers := outliers.take 10 }

/-- The dict returned by `DataProfiler.detect_outliers_for_visualization`.
The fields that are present only in the non-empty branch are `Option`s. -/
structure OutlierViz where
  hasOutliers : Bool
  outlierCount : Nat
  outlierPercentage : Option Rat
  lowerBound : Option Rat
  upperBound : Option Rat
  outliers : List Rat
  inliersCount : Nat
  q1 : Option Rat
  q3 : Option Rat
  iqr : Option Rat
deriving DecidableEq, Repr

/-- `DataProfiler.detect_outliers_for_visualization(series, multiplier)`:
IQR outlier statistics for visualization.  Bounds, quartiles and the IQR
are rounded to 2 decimals; example outliers are rounded and capped at 50. -/
def detectOutliersForVisualization (cells : List Cell) (multiplier : Rat) : OutlierViz :=
  let numeric := coercedValues cells
  if numeric.length = 0 then
    { hasOutliers := false, outlierCount := 0, outlierPercentage := none
      lowerBound := none, upperBound := none, outliers := []
      inliersCount := 0, q1 := none, q3 := none, iqr := none }
  else
    let q1 := quantileLinear numeric (1/4)
    let q3 := quantileLinear numeric (3/4)
    let iqr := q3 - q1
    let lowerBound := q1 - multiplier * iqr
    let upperBound := q3 + multiplier * iqr
    let outliers := numeric.filter (fun x => x < lowerBound || upperBound < x)
    { hasOutliers := decide (0 < outliers.length)
      outlierCount := outliers.length
      outlierPercentage := some (roundQ ((outliers.length : Rat) / (numeric.length : Rat) * 100))
      lowerBound := some (roundQ lowerBound)
      upperBound := some (roundQ upperBound)
      outliers := (outliers.take 50).map roundQ
      inliersCount := numeric.length - outliers.length
      q1 := some (roundQ q1)
      q3 := some (roundQ q3)
      iqr := some (roundQ iqr) }

/-- The dict returned by `AdvancedQualityAnalyzer.analyze_column_quality`.
Keys present only on the normal path are `Option`s (`none` models an
absent key, as read back by Python `dict.get` with a default).
`numeric_stats` (min/max/mean/median/std of the column) is omitted from
the embedding: no claim depends on it, and the sample standard deviation
is irrational.  The `outlier_info` key is always present on the normal
path but its value may be `None`: hence `Option (Option _)`. -/
structure ColQuality where
  columnName : String
  error : Option String
  totalValues : Nat
  nullCount : Nat
  nullPercentage : Option Rat
  emptyStringCount : Option Nat
  emptyPercentage : Option Rat
  invalidCount : Option Nat
  uniqueCount : Option Nat
  uniquePercentage : Option Rat
  completenessPercentage : Rat
  inferredType : Option String
  typeConsistent : Option Bool
  outlierInfo : Option (Option OutlierIqr)
deriving DecidableEq, Repr

/-- Count of empty-string cells, `(series == "").sum()` on an
`object`-dtype column (on a numeric dtype the comparison is all-false). -/
def emptyStringCountOf (cells : List Cell) : Nat :=
  if isObjectDtype cells then cells.countP (fun c => c = Cell.str "") else 0

/-- Count of non-null values failing numeric coercion on an
`object`-dtype column: `series.notna().sum() -
pd.to_numeric(series, errors="coerce").notna().sum()`. -/
def invalidCountOf (cells : List Cell) : Nat :=
  if isObjectDtype cells then
    cells.countP (fun c => match c with | .str s => (parseNumeric s).isNone | _ => false)
  else 0

/-- The normal (no exception) body of
`AdvancedQualityAnalyzer.analyze_column_quality`. -/
def analyzeColumnQualityOk (name : String) (cells : List Cell)
    (expectedType : Option String) : ColQuality :=
  let total := cells.length
  let nullCount := nullCountOf cells
  let emptyCount := emptyStringCountOf cells
  let inferredType := dtypeName cells
  let typeConsistent :=
    match expectedType with
    | none => true
    | some e => e = "" || e = inferredType
  let outlierInfo : Option OutlierIqr :=
    if isNumericDtype cells && decide (0 < (nonNullCells cells).length) then
      some (detectOutliersIqr cells (3/2))
    else none
  let invalid := invalidCountOf cells
  let unique := nuniqueOf cells
  { columnName := name
    error := none
    totalValues := total
    nullCount := nullCount
    nullPercentage :=
      some (roundQ (if 0 < total then (nullCount : Rat) / (total : Rat) * 100 else 0))
    emptyStringCount := some emptyCount
    emptyPercentage :=
      some (roundQ (if 0 < total then (emptyCount : Rat) / (total : Rat) * 100 else 0))
    invalidCount := some invalid
    uniqueCount := some unique
    uniquePercentage :=
      some (roundQ (if 0 < total then (unique : Rat) / (total : Rat) * 100 else 0))
    completenessPercentage :=
      roundQ (if 0 < total then
        ((total : Rat) - (nullCount : Rat) - (emptyCount : Rat)) / (total : Rat) * 100
      else 0)
    inferredType := some inferredType
    typeConsistent := some typeConsistent
    outlierInfo := some outlierInfo }

/-- `AdvancedQualityAnalyzer.analyze_column_quality` with its
`try/except`: when the failure oracle reports an exception for this
column, the degraded dict of the `except` branch is returned
(`column_name`, `error`, `total_values=0`, `null_count=0`,
`completeness_percentage=0.0`; every other key absent). -/
def analyzeColumnQuality (fail : String → Option String) (name : String)
    (cells : List Cell) (expectedType : Option String) : ColQuality :=
  match fail name with
  | some e =>
    { columnName := name, error := some e, totalValues := 0, nullCount := 0
      nullPercentage := none, emptyStringCount := none, emptyPercentage := none
      invalidCount := none, uniqueCount := none, uniquePercentage := none
      completenessPercentage := 0, inferredType := none, typeConsistent := none
      outlierInfo := none }
  | none => analyzeColumnQualityOk name cells expectedType

/-- `issues_summary`: dataset-level issue counts by category. -/
structure Issues where
  missingValues : Nat
  invalidValues : Nat
  outliers : Nat
  typeInconsistencies : Nat
deriving DecidableEq, Repr

/-- `dataset_metrics` of the advanced quality report. -/
structure DatasetMetrics where
  totalRows : Nat
  totalColumns : Nat
  totalCells : Nat
deriving DecidableEq, Repr

/-- `AdvancedQualityAnalyzer._generate_recommendations(column_reports,
issues_summary)`: the sequentially built list of advisory strings. -/
def generateRecommendations (columnReports : List ColQuality) (issues : Issues) :
    List String :=
  let recs : List String := []
  let recs := if 0 < issues.missingValues then
    recs ++ ["Found " ++ toString issues.missingValues ++
      " missing values. Consider imputation or removing incomplete rows."]
  else recs
  let recs := if 0 < issues.outliers then
    recs ++ ["Detected " ++ toString issues.outliers ++
      " outliers across numeric columns. Review and validate extreme values."]
  else recs
  let recs := if 0 < issues.typeInconsistencies then
    recs ++ ["Found " ++ toString issues.typeInconsistencies ++
      " columns with type inconsistencies. Verify data types match expectations."]
  else recs
  let recs := if 0 < issues.invalidValues then
    recs ++ ["Found " ++ toString issues.invalidValues ++
      " invalid values. Clean or standardize data format."]
  else recs
  let lowCompletenessCols :=
    (columnReports.filter (fun c => c.completenessPercentage < 50)).map
      (fun c => c.columnName)
  let recs := if !lowCompletenessCols.isEmpty then
    recs ++ ["Columns with <50% completeness: " ++
      String.intercalate ", " (lowCompletenessCols.take 3) ++
      ". Consider removing or imputing these columns."]
  else recs
  if recs.isEmpty then
    ["Dataset quality is good. No major issues detected."]
  else recs

/-- The advanced quality report (the dict returned on the success path of
`AdvancedQualityAnalyzer.generate_advanced_quality_report`). -/
structure AdvReport where
  datasetMetrics : DatasetMetrics
  qualityScore : Rat
  issuesSummary : Issues
  columnQuality : List ColQuality
  recommendations : List String
deriving DecidableEq, Repr

/-- The body of `AdvancedQualityAnalyzer.generate_advanced_quality_report`
after the CSV has been loaded into `t`: per-column analysis, aggregate
issue counts, the quality score, and recommendations.  `expectedTypes`
models the lookup into the optional `column_metadata` list. -/
def advancedQualityReport (fail : String → Option String)
    (expectedTypes : String → Option String) (t : Table) : AdvReport :=
  let totalRows := nRows t
  let totalColumns := t.cols.length
  let columnReports :=
    t.cols.map (fun c => analyzeColumnQuality fail c.1 c.2 (expectedTypes c.1))
  let totalNullCount := (columnReports.map (fun c => c.nullCount)).sum
  let totalEmptyStrings := (columnReports.map (fun c => c.emptyStringCount.getD 0)).sum
  let totalInvalidValues := (columnReports.map (fun c => c.invalidCount.getD 0)).sum
  let totalOutliers :=
    (columnReports.map (fun c =>
      match c.outlierInfo with
      | some (some o) => o.outlierCount
      | _ => 0)).sum
  let issues : Issues :=
    { missingValues := totalNullCount + totalEmptyStrings
      invalidValues := totalInvalidValues
      outliers := totalOutliers
      typeInconsistencies :=
        columnReports.countP (fun c => !(c.typeConsistent.getD true)) }
  let totalCells := totalRows * totalColumns
  let problematicCells := totalNullCount + totalEmptyStrings + totalInvalidValues
  let qualityScore : Rat :=
    if 0 < totalCells then
      roundQ (((totalCells : Rat) - (problematicCells : Rat)) / (totalCells : Rat) * 100)
    else roundQ 100
  { datasetMetrics :=
      { totalRows := totalRows, totalColumns := totalColumns, totalCells := totalCells }
    qualityScore := qualityScore
    issuesSummary := issues
    columnQuality := columnReports
    recommendations := generateRecommendations columnReports issues }

/-- The outcome of `pd.read_csv(file_path)`: a loaded table, a missing
file (`FileNotFoundError`, with the exception's message), or any other
load failure with its message. -/
inductive LoadResult where
  | ok (t : Table) : LoadResult
  | notFound (msg : String) : LoadResult
  | failed (msg : String) : LoadResult
deriving DecidableEq, Repr

/-- `AdvancedQualityAnalyzer.generate_advanced_quality_report(file_path,
column_metadata)` including its `try/except`: any failure (unreadable
resource included) is re-raised as
`ValueError("Failed to generate quality report: ...")`, modelled as
`Except.error`.  A zero-row table is not special-cased: it flows through
the normal body. -/
def generateAdvancedQualityReportE (fail : String → Option String)
    (expectedTypes : String → Option String) (r : LoadResult) :
    Except String AdvReport :=
  match r with
  | .ok t => .ok (advancedQualityReport fail expectedTypes t)
  | .notFound m => .error ("Failed to generate quality report: " ++ m)
  | .failed m => .error ("Failed to generate quality report: " ++ m)

/-- `str(value)` for a frequency entry (display only; the entries of a
categorical column are text values, shown verbatim). -/
def cellToString : Cell → String
  | .null => "nan"
  | .num q => toString q
  | .str s => s

/-- One entry of the categorical frequency list. -/
structure FreqEntry where
  value : String
  count : Nat
  percentage : Rat
deriving DecidableEq, Repr

/-- `series.value_counts()` over the non-null values: each distinct value
with its occurrence count, sorted by count descending; ties keep first-
appearance order (the stable insertion sort models the pandas hash-table
order). -/
def valueCountsOf (vs : List Cell) : List (Cell × Nat) :=
  ((uniqueInOrder vs).map (fun v => (v, vs.count v))).insertionSort
    (fun a b => b.2 ≤ a.2)

/-- `DataProfiler.get_categorical_frequencies(series, top_n,
min_frequency)`: value counts filtered to counts `≥ min_frequency`,
truncated to the top `top_n`, plus a synthetic `"Other"` bucket when
more distinct values exist than `top_n` and the residual is positive. -/
def getCategoricalFrequencies (cells : List Cell) (topN : Nat) (minFrequency : Nat) :
    List FreqEntry :=
  let valid := nonNullCells cells
  if valid.isEmpty then []
  else
    let vc := ((valueCountsOf valid).filter (fun p => minFrequency ≤ p.2)).take topN
    let frequencies := vc.map (fun p =>
      { value := cellToString p.1
        count := p.2
        percentage := roundQ ((p.2 : Rat) / (valid.length : Rat) * 100) })
    if topN < (uniqueInOrder valid).length then
      let otherCount := valid.length - (frequencies.map (fun f => f.count)).sum
      if 0 < otherCount then
        frequencies ++
          [{ value := "Other"
             count := otherCount
             percentage := roundQ ((otherCount : Rat) / (valid.length : Rat) * 100) }]
      else frequencies
    else frequencies

/-- One entry of `DataProfiler.get_missing_values_summary`. -/
structure MissingEntry where
  columnName : String
  nullCount : Nat
  emptyCount : Nat
  totalMissing : Nat
  missingPercentage : Rat
  presentCount : Int
  presentPercentage : Rat
deriving DecidableEq, Repr

/-- The loop body of `DataProfiler.get_missing_values_summary` for one
column; `totalRows` is `len(df)`. -/
def missingEntry (name : String) (cells : List Cell) (totalRows : Nat) : MissingEntry :=
  let nullCount := nullCountOf cells
  let emptyCount := emptyStringCountOf cells
  let totalMissing := nullCount + emptyCount
  let missingPercentage : Rat :=
    if 0 < totalRows then (totalMissing : Rat) / (totalRows : Rat) * 100 else 0
  { columnName := name
    nullCount := nullCount
    emptyCount := emptyCount
    totalMissing := totalMissing
    missingPercentage := roundQ missingPercentage
    presentCount := (totalRows : Int) - (totalMissing : Int)
    presentPercentage := roundQ (100 - missingPercentage) }

/-- `DataProfiler.get_missing_values_summary(df)`. -/
def getMissingValuesSummary (t : Table) : List MissingEntry :=
  t.cols.map (fun c => missingEntry c.1 c.2 (nRows t))

/-- Minimum of a numeric series (`series.min()`; callers guard non-empty). -/
def listMinD : List Rat → Rat
  | [] => 0
  | a :: r => r.foldl min a

/-- Maximum of a numeric series (`series.max()`; callers guard non-empty). -/
def listMaxD : List Rat → Rat
  | [] => 0
  | a :: r => r.foldl max a

/-- One bin of `DataProfiler.generate_histogram_bins` (the formatted
`label` string is omitted: pure float formatting). -/
structure HistBin where
  lower : Rat
  upper : Rat
  midpoint : Rat
  count : Nat
deriving DecidableEq, Repr

/-- The dict returned by `DataProfiler.generate_histogram_bins`; the
empty branch returns `counts=[]`/`min=None`/`max=None` and no
`total_values` key, the normal branch the converse. -/
structure Histogram where
  bins : List HistBin
  counts : Option (List Nat)
  totalValues : Option Nat
  min : Option Rat
  max : Option Rat
deriving DecidableEq, Repr

/-- `DataProfiler.generate_histogram_bins(series, num_bins)`:
`np.histogram` equal-width binning over `[min, max]` (numpy widens a
degenerate range to `[min - 0.5, max + 0.5]`); every bin is
half-open except the last, which is closed. -/
def generateHistogramBins (cells : List Cell) (numBins : Nat) : Histogram :=
  let numeric := coercedValues cells
  if numeric.length = 0 then
    { bins := [], counts := some [], totalValues := none, min := none, max := none }
  else
    let mn := listMinD numeric
    let mx := listMaxD numeric
    let lo := if mn = mx then mn - 1/2 else mn
    let hi := if mn = mx then mx + 1/2 else mx
    let edge : Nat → Rat := fun i => lo + (hi - lo) * (i : Rat) / (numBins : Rat)
    let bins := (List.range numBins).map (fun i =>
      let l := edge i
      let u := edge (i + 1)
      let cnt :=
        if i + 1 = numBins then numeric.countP (fun x => decide (l ≤ x) && decide (x ≤ u))
        else numeric.countP (fun x => decide (l ≤ x) && decide (x < u))
      { lower := roundQ l, upper := roundQ u, midpoint := roundQ ((l + u) / 2)
        count := cnt })
    { bins := bins, counts := none, totalValues := some numeric.length
      min := some (roundQ mn), max := some (roundQ mx) }

/-- The numeric `statistics` sub-dict of `DataProfiler.profile_column`
(min/max/mean/median, each rounded to 2 decimals; the sample standard
deviation is omitted from the embedding: it is irrational and no claim
depends on it). -/
structure NumStatsR where
  min : Rat
  max : Rat
  mean : Rat
  median : Rat
deriving DecidableEq, Repr

/-- The dict returned by `DataProfiler.profile_column`.  Keys that a
branch leaves out of the dict are `none`; keys present with value `None`
are `some none`. -/
structure ColumnProfile where
  columnName : String
  error : Option String
  dataType : Option String
  isNumeric : Option Bool
  totalValues : Option Nat
  uniqueCount : Option Nat
  nullCount : Option Nat
  statistics : Option (Option NumStatsR)
  histogram : Option (Option Histogram)
  outliers : Option (Option OutlierViz)
  valueCounts : Option (List FreqEntry)
deriving DecidableEq, Repr

/-- The degraded profile returned by the `except` branch of
`DataProfiler.profile_column`: the error marker, `data_type="unknown"`,
`is_numeric=False`, `total_values=0`, and every other key absent. -/
def degradedProfile (name : String) (e : String) : ColumnProfile :=
  { columnName := name, error := some e, dataType := some "unknown"
    isNumeric := some false, totalValues := some 0, uniqueCount := none
    nullCount := none, statistics := none, histogram := none, outliers := none
    valueCounts := none }

/-- The normal (no exception) body of `DataProfiler.profile_column`. -/
def profileColumnOk (name : String) (cells : List Cell)
    (isNumericArg : Option Bool) : ColumnProfile :=
  let isNumeric := isNumericArg.getD (isNumericDtype cells)
  let base : ColumnProfile :=
    { columnName := name, error := none, dataType := some (dtypeName cells)
      isNumeric := some isNumeric, totalValues := some cells.length
      uniqueCount := some (nuniqueOf cells), nullCount := some (nullCountOf cells)
      statistics := none, histogram := none, outliers := none, valueCounts := none }
  if isNumeric then
    let numeric := coercedValues cells
    if 0 < numeric.length then
      { base with
        statistics := some (some
          { min := roundQ (listMinD numeric)
            max := roundQ (listMaxD numeric)
            mean := roundQ (numeric.sum / (numeric.length : Rat))
            median := roundQ (quantileLinear numeric (1/2)) })
        histogram := some (some (generateHistogramBins cells 20))
        outliers := some (some (detectOutliersForVisualization cells (3/2))) }
    else
      { base with statistics := some none, histogram := some none
                  outliers := some none }
  else
    { base with valueCounts := some (getCategoricalFrequencies cells 15 1) }

/-- `DataProfiler.profile_column(df, column_name, is_numeric)` with its
`try/except`, the exception modelled by the failure oracle. -/
def profileColumn (fail : String → Option String) (name : String)
    (cells : List Cell) (isNumericArg : Option Bool) : ColumnProfile :=
  match fail name with
  | some e => degradedProfile name e
  | none => profileColumnOk name cells isNumericArg

/-- `dataset_info` of the full profile (`memory_usage_mb` omitted:
process-level measurement outside the data model). -/
structure DatasetInfo where
  totalRows : Nat
  totalColumns : Nat
deriving DecidableEq, Repr

/-- The keys of the full profile present only on the success path. -/
structure FullProfileBody where
  missingSummary : List MissingEntry
  columnProfiles : List ColumnProfile
  numericColumns : List String
  categoricalColumns : List String
  totalMissingValues : Nat
  totalOutliers : Nat
deriving DecidableEq, Repr

/-- The dict returned by `DataProfiler.generate_full_profile`:
`success`, an `error` string on the failure paths, `dataset_info`, and on
success the profiling body. -/
structure FullProfile where
  success : Bool
  error : Option String
  datasetInfo : DatasetInfo
  body : Option FullProfileBody
deriving DecidableEq, Repr

/-- `DataProfiler.generate_full_profile(file_path, max_columns)`: load
the CSV; an empty table (zero rows or zero columns) and the load
failures yield `success=False` reports with zeroed metrics; otherwise
the table is truncated to the first `max_columns` columns *before* the
dataset info is computed, and each remaining column is profiled. -/
def generateFullProfile (fail : String → Option String) (r : LoadResult)
    (maxColumns : Nat) : FullProfile :=
  match r with
  | .notFound _ =>
    { success := false, error := some "Dataset file not found"
      datasetInfo := { totalRows := 0, totalColumns := 0 }, body := none }
  | .failed m =>
    { success := false, error := some ("Profiling failed: " ++ m)
      datasetInfo := { totalRows := 0, totalColumns := 0 }, body := none }
  | .ok t =>
    if isEmptyT t then
      { success := false, error := some "Dataset is empty"
        datasetInfo := { totalRows := 0, totalColumns := 0 }, body := none }
    else
      let cols := t.cols.take maxColumns
      let rows := nRows t
      let missingSummary := cols.map (fun c => missingEntry c.1 c.2 rows)
      let columnProfiles :=
        cols.map (fun c => profileColumn fail c.1 c.2 (some (isNumericDtype c.2)))
      let numericColumns := (cols.filter (fun c => isNumericDtype c.2)).map (fun c => c.1)
      let categoricalColumns :=
        (cols.filter (fun c => !isNumericDtype c.2)).map (fun c => c.1)
      { success := true
        error := none
        datasetInfo := { totalRows := rows, totalColumns := cols.length }
        body := some
          { missingSummary := missingSummary
            columnProfiles := columnProfiles
            numericColumns := numericColumns
            categoricalColumns := categoricalColumns
            totalMissingValues := (missingSummary.map (fun m => m.totalMissing)).sum
            totalOutliers := (columnProfiles.map (fun p =>
              if p.isNumeric.getD false then
                match p.outliers with
                | some (some o) => o.outlierCount
                | _ => 0
              else 0)).sum } }

/-- An IEEE-style extended floating value, for the parts of the engine
where non-finite values can occur: `pd.read_csv` parses the texts `inf`
and `-inf` to infinite floats (while `nan`-like texts become nulls), so
a numeric column can hold infinities, and float arithmetic on them can
produce `nan`.  Finite values stay exact rationals. -/
inductive XF where
  | fin (q : Rat) : XF
  | pinf : XF
  | ninf : XF
  | nan : XF
deriving DecidableEq, Repr

/-- Is this float finite? -/
def XF.isFinite : XF → Bool
  | .fin _ => true
  | _ => false

/-- IEEE negation. -/
def XF.neg : XF → XF
  | .fin q => .fin (-q)
  | .pinf => .ninf
  | .ninf => .pinf
  | .nan => .nan

/-- IEEE addition: `nan` propagates, `inf + (-inf) = nan`. -/
def XF.add : XF → XF → XF
  | .nan, _ => .nan
  | _, .nan => .nan
  | .fin a, .fin b => .fin (a + b)
  | .pinf, .ninf => .nan
  | .ninf, .pinf => .nan
  | .pinf, _ => .pinf
  | _, .pinf => .pinf
  | .ninf, _ => .ninf
  | _, .ninf => .ninf

/-- IEEE subtraction. -/
def XF.sub (a b : XF) : XF := a.add b.neg

/-- IEEE multiplication: `nan` propagates, `0 * inf = nan`. -/
def XF.mul : XF → XF → XF
  | .nan, _ => .nan
  | _, .nan => .nan
  | .fin a, .fin b => .fin (a * b)
  | .fin a, .pinf => if a = 0 then .nan else if 0 < a then .pinf else .ninf
  | .fin a, .ninf => if a = 0 then .nan else if 0 < a then .ninf else .pinf
  | .pinf, .fin b => if b = 0 then .nan else if 0 < b then .pinf else .ninf
  | .ninf, .fin b => if b = 0 then .nan else if 0 < b then .ninf else .pinf
  | .pinf, .pinf => .pinf
  | .pinf, .ninf => .ninf
  | .ninf, .pinf => .ninf
  | .ninf, .ninf => .pinf

/-- IEEE strict comparison: every comparison against `nan` is false. -/
def XF.lt : XF → XF → Bool
  | .nan, _ => false
  | _, .nan => false
  | .fin a, .fin b => a < b
  | .fin _, .pinf => true
  | .ninf, .fin _ => true
  | .ninf, .pinf => true
  | _, _ => false

/-- The sort order used by numpy on floats: `nan` sorts last. -/
def XF.sortLe : XF → XF → Bool
  | _, .nan => true
  | .nan, _ => false
  | .ninf, _ => true
  | _, .pinf => true
  | .fin a, .fin b => a ≤ b
  | _, _ => false

/-- `quantileLinear` over extended floats, with IEEE arithmetic for the
interpolation `lo + (h - i) * (hi - lo)`. -/
def quantileLinearX (l : List XF) (p : Rat) : XF :=
  let s := l.insertionSort (fun a b => XF.sortLe a b = true)
  let n := s.length
  let h := p * ((n : Rat) - 1)
  let i := (⌊h⌋).toNat
  let lo := s.getD i (XF.fin 0)
  let hi := s.getD (i + 1) lo
  lo.add ((XF.fin (h - (i : Rat))).mul (hi.sub lo))

/-- `detect_outliers_iqr`'s dict over extended floats. -/
structure OutlierIqrX where
  outlierCount : Nat
  outlierPercentage : Rat
  lowerBound : Option XF
  upperBound : Option XF
  outliers : List XF
deriving DecidableEq, Repr

/-- `AdvancedQualityAnalyzer.detect_outliers_iqr` on a numeric series
that may hold infinite values (as loaded from a CSV containing `inf`):
the same computation as `detectOutliersIqr`, under IEEE float
arithmetic.  `dropna` removes only `nan`; infinities stay. -/
def detectOutliersIqrX (series : List XF) (multiplier : Rat) : OutlierIqrX :=
  let numeric := series.filter (fun x => x ≠ XF.nan)
  if numeric.length = 0 then
    { outlierCount := 0, outlierPercentage := 0, lowerBound := none
      upperBound := none, outliers := [] }
  else
    let q1 := quantileLinearX numeric (1/4)
    let q3 := quantileLinearX numeric (3/4)
    let iqr := q3.sub q1
    let lowerBound := q1.sub ((XF.fin multiplier).mul iqr)
    let upperBound := q3.add ((XF.fin multiplier).mul iqr)
    let outliers := numeric.filter (fun x => x.lt lowerBound || upperBound.lt x)
    { outlierCount := outliers.length
      outlierPercentage := roundQ ((outliers.length : Rat) / (numeric.length : Rat) * 100)
      lowerBound := some lowerBound
      upperBound := some upperBound
      outliers := outliers.take 10 }

/-- A JSON-bound record value as handed to `CSVParser._sanitize_records`:
null, a float, or text. -/
inductive JVal where
  | null : JVal
  | num (x : XF) : JVal
  | str (s : String) : JVal
deriving DecidableEq, Repr

/-- `CSVParser._sanitize_records(records)`: every float value that is
`nan` or infinite is rewritten to `None`; everything else is kept. -/
def sanitizeRecords (records : List (List (String × JVal))) :
    List (List (String × JVal)) :=
  records.map (fun row => row.map (fun kv =>
    match kv.2 with
    | .num x => if x.isFinite then kv else (kv.1, JVal.null)
    | _ => kv))

/-- No non-float value, and no finite float, is non-finite. -/
def JVal.isFiniteSafe : JVal → Bool
  | .num x => x.isFinite
  | _ => true

/-! ## Helper lemmas about rounding -/

theorem rhe_intCast (n : Int) : rhe (n : Rat) = n := by
  unfold rhe
  simp [Int.floor_intCast]

theorem floor_le_rhe (x : Rat) : ⌊x⌋ ≤ rhe x := by
  unfold rhe
  split_ifs <;> simp [Int.le_add_one, le_refl]

theorem rhe_le_ceil (x : Rat) : rhe x ≤ ⌈x⌉ := by
  have hfc : ⌊x⌋ ≤ ⌈x⌉ := Int.floor_le_ceil x
  have hup : ¬ (x - ⌊x⌋ < 1/2) → ⌊x⌋ + 1 ≤ ⌈x⌉ := by
    intro h
    have h0 : (0 : Rat) < x - ⌊x⌋ := by
      have : (1:Rat)/2 ≤ x - ⌊x⌋ := le_of_not_lt h
      linarith
    have hx : (⌊x⌋ : Rat) < x := by linarith
    have : (⌊x⌋ : Rat) < (⌈x⌉ : Rat) := lt_of_lt_of_le hx (Int.le_ceil x)
    exact Int.lt_iff_add_one_le.mp (by exact_mod_cast this)
  unfold rhe
  split_ifs with h1 h2 h3
  · exact hfc
  · exact hup h1
  · exact hfc
  · exact hup h1

theorem roundQ_nonneg {x : Rat} (h : 0 ≤ x) : 0 ≤ roundQ x := by
  unfold roundQ
  have h1 : (0:Int) ≤ ⌊x * 100⌋ := by
    have : (0:Rat) ≤ x * 100 := by positivity
    exact Int.floor_nonneg.mpr this
  have h2 : (0:Int) ≤ rhe (x * 100) := le_trans h1 (floor_le_rhe _)
  positivity

theorem roundQ_le_hundred {x : Rat} (h : x ≤ 100) : roundQ x ≤ 100 := by
  unfold roundQ
  have h1 : x * 100 ≤ ((10000 : Int) : Rat) := by push_cast; linarith
  have h2 : rhe (x * 100) ≤ 10000 := by
    calc rhe (x * 100) ≤ ⌈x * 100⌉ := rhe_le_ceil _
    _ ≤ ⌈((10000 : Int) : Rat)⌉ := Int.ceil_le_ceil h1
    _ = 10000 := Int.ceil_intCast _
  have h3 : ((rhe (x * 100) : Int) : Rat) ≤ 10000 := by exact_mod_cast h2
  rw [div_le_iff₀ (by norm_num : (0:Rat) < 100)]
  linarith

theorem roundQ_hundred : roundQ 100 = 100 := by
  unfold roundQ
  have : (100 : Rat) * 100 = ((10000 : Int) : Rat) := by norm_num
  rw [this, rhe_intCast]
  norm_num

theorem uniqueInOrderAux_congr :
    ∀ (f₁ f₂ : Nat) (l : List Cell), l.length ≤ f₁ → l.length ≤ f₂ →
      uniqueInOrderAux f₁ l = uniqueInOrderAux f₂ l := by
  intro f₁
  induction f₁ with
  | zero =>
    intro f₂ l h1 h2
    have hl : l = [] := List.eq_nil_of_length_eq_zero (Nat.le_zero.mp h1)
    subst hl
    cases f₂ <;> rfl
  | succ n ih =>
    intro f₂ l h1 h2
    match l with
    | [] => cases f₂ <;> rfl
    | a :: t =>
      cases f₂ with
      | zero => exact absurd h2 (by simp)
      | succ g =>
        show a :: uniqueInOrderAux n (t.filter (fun b => b ≠ a)) =
          a :: uniqueInOrderAux g (t.filter (fun b => b ≠ a))
        congr 1
        have ht1 : t.length ≤ n := by simpa using h1
        have ht2 : t.length ≤ g := by simpa using h2
        exact ih g _ (le_trans (List.length_filter_le _ _) ht1)
          (le_trans (List.length_filter_le _ _) ht2)

theorem uniqueInOrder_nil : uniqueInOrder [] = [] := rfl

theorem uniqueInOrder_cons (a : Cell) (l : List Cell) :
    uniqueInOrder (a :: l) = a :: uniqueInOrder (l.filter (fun b => b ≠ a)) := by
  show a :: uniqueInOrderAux l.length (l.filter (fun b => b ≠ a)) = _
  congr 1
  exact uniqueInOrderAux_congr l.length _ _
    (List.length_filter_le _ _) (le_refl _)

/-- Induction along the recursion pattern of `uniqueInOrder`. -/
theorem uniqueInOrder_rec (motive : List Cell → Prop) (h0 : motive [])
    (h1 : ∀ a l, motive (l.filter (fun b => b ≠ a)) → motive (a :: l)) :
    ∀ l, motive l := by
  have key : ∀ n (l : List Cell), l.length ≤ n → motive l := by
    intro n
    induction n with
    | zero =>
      intro l hl
      have : l = [] := List.eq_nil_of_length_eq_zero (Nat.le_zero.mp hl)
      exact this ▸ h0
    | succ n ih =>
      intro l hl
      match l with
      | [] => exact h0
      | a :: t =>
        apply h1
        apply ih
        exact le_trans (List.length_filter_le _ _) (by simpa using hl)
  exact fun l => key l.length l (le_refl _)

theorem mem_of_mem_uniqueInOrder {v : Cell} :
    ∀ {l : List Cell}, v ∈ uniqueInOrder l → v ∈ l := by
  intro l
  induction l using uniqueInOrder_rec with
  | h0 => simp [uniqueInOrder_nil]
  | h1 a l ih =>
    rw [uniqueInOrder_cons]
    intro hv
    rcases List.mem_cons.mp hv with h | h
    · exact h ▸ List.mem_cons_self a l
    · exact List.mem_cons_of_mem a (List.mem_of_mem_filter (ih h))

theorem length_count_filter_ne (a : Cell) (t : List Cell) :
    t.length = t.count a + (t.filter (fun b => b ≠ a)).length := by
  induction t with
  | nil => rfl
  | cons b t ih =>
    by_cases hb : b = a
    · subst hb
      simp only [List.count_cons_self, List.filter_cons, List.length_cons]
      rw [if_neg (by simp)]
      omega
    · rw [List.count_cons_of_ne (Ne.symm hb), List.filter_cons, if_pos (by simpa using hb)]
      simp only [List.length_cons]
      omega

theorem sum_count_uniqueInOrder (l : List Cell) :
    ((uniqueInOrder l).map (fun v => l.count v)).sum = l.length := by
  induction l using uniqueInOrder_rec with
  | h0 => simp [uniqueInOrder_nil]
  | h1 a l ih =>
    rw [uniqueInOrder_cons]
    simp only [List.map_cons, List.sum_cons, List.count_cons_self]
    have hmap :
        (uniqueInOrder (l.filter (fun b => b ≠ a))).map (fun v => (a :: l).count v) =
        (uniqueInOrder (l.filter (fun b => b ≠ a))).map
          (fun v => (l.filter (fun b => b ≠ a)).count v) := by
      apply List.map_congr_left
      intro v hv
      have hvf := mem_of_mem_uniqueInOrder hv
      have hne : v ≠ a := by simpa using List.of_mem_filter hvf
      rw [List.count_cons_of_ne hne, List.count_filter (by simpa using hne)]
    rw [hmap, ih, List.length_cons]
    have := length_count_filter_ne a l
    omega

theorem sum_counts_valueCountsOf (vs : List Cell) :
    ((valueCountsOf vs).map (fun p => p.2)).sum = vs.length := by
  unfold valueCountsOf
  have hperm := List.perm_insertionSort (fun a b : Cell × Nat => b.2 ≤ a.2)
    ((uniqueInOrder vs).map (fun v => (v, vs.count v)))
  rw [(hperm.map (fun p : Cell × Nat => p.2)).sum_eq, List.map_map]
  simpa using sum_count_uniqueInOrder vs

theorem pos_of_mem_valueCountsOf {vs : List Cell} {p : Cell × Nat}
    (hp : p ∈ valueCountsOf vs) : 0 < p.2 := by
  unfold valueCountsOf at hp
  have hperm := List.perm_insertionSort (fun a b : Cell × Nat => b.2 ≤ a.2)
    ((uniqueInOrder vs).map (fun v => (v, vs.count v)))
  have hp2 := hperm.mem_iff.mp hp
  rcases List.mem_map.mp hp2 with ⟨v, hv, rfl⟩
  exact List.count_pos_iff.mpr (mem_of_mem_uniqueInOrder hv)

theorem length_valueCountsOf (vs : List Cell) :
    (valueCountsOf vs).length = (uniqueInOrder vs).length := by
  unfold valueCountsOf
  rw [(List.perm_insertionSort _ _).length_eq, List.length_map]

theorem roundQ_zero : roundQ 0 = 0 := by decide

theorem profileColumn_columnName (fail : String → Option String)
    (name : String) (cells : List Cell) (arg : Option Bool) :
    (profileColumn fail name cells arg).columnName = name := by
  unfold profileColumn
  cases fail name with
  | some e => rfl
  | none =>
    show (profileColumnOk name cells arg).columnName = name
    unfold profileColumnOk
    dsimp only
    split_ifs <;> rfl

/-! ## Claim theorems -/

/-- C9: for the numeric column `[1,2,3,4,5,6,7,8,9,100]` with the default
multiplier 1.5, IQR outlier detection yields Q1 = 3.25, Q3 = 7.75,
IQR = 4.5, lower_bound = -3.5, upper_bound = 14.5, outlier_count = 1 (the
value 100) and outlier_percentage = 10.0 — both in the visualization
variant (which reports the quartiles) and in the quality-analyzer
variant. -/
theorem c9_iqr_worked_example :
    detectOutliersForVisualization
      [Cell.num 1, Cell.num 2, Cell.num 3, Cell.num 4, Cell.num 5,
       Cell.num 6, Cell.num 7, Cell.num 8, Cell.num 9, Cell.num 100] (3/2) =
      { hasOutliers := true, outlierCount := 1, outlierPercentage := some 10
        lowerBound := some (-(7/2)), upperBound := some (29/2), outliers := [100]
        inliersCount := 9, q1 := some (13/4), q3 := some (31/4)
        iqr := some (9/2) } ∧
    detectOutliersIqr
      [Cell.num 1, Cell.num 2, Cell.num 3, Cell.num 4, Cell.num 5,
       Cell.num 6, Cell.num 7, Cell.num 8, Cell.num 9, Cell.num 100] (3/2) =
      { outlierCount := 1, outlierPercentage := 10, lowerBound := some (-(7/2))
        upperBound := some (29/2), outliers := [100] } := by
  constructor <;> decide

/-- C1 counterexample: the dataset-level quality score is *not* in
`[0,100]` for every input.  For the one-column table whose single cell is
the empty string, the empty string is counted both as a missing value
(`empty_string_count`) and as an invalid value (it is non-null and fails
numeric coercion), so `problematic_cells = 2 > total_cells = 1` and the
score is `(1 - 2) / 1 * 100 = -100`. -/
theorem c1_counterexample :
    (advancedQualityReport (fun _ => none) (fun _ => none)
        { cols := [("a", [Cell.str ""])] }).qualityScore = -100 ∧
    ¬ (0 ≤ (advancedQualityReport (fun _ => none) (fun _ => none)
        { cols := [("a", [Cell.str ""])] }).qualityScore) := by
  constructor <;> decide

/-- C2 counterexample: it is not true that *every* report-generating
entry point returns a `success=false` report instead of raising across
the interface.  `AdvancedQualityAnalyzer.generate_advanced_quality_report`
re-raises every dataset-level failure (unreadable resource included) as a
`ValueError` (modelled by `Except.error`) rather than returning a failed
report, and it has no zero-row special case at all. -/
theorem c2_counterexample :
    generateAdvancedQualityReportE (fun _ => none) (fun _ => none)
        (LoadResult.failed "could not parse file") =
      Except.error "Failed to generate quality report: could not parse file" := by
  rfl

/-- C2 amended: the data-profiler entry point
`DataProfiler.generate_full_profile` does satisfy the claim: every
dataset-level failure (zero-row or zero-column table, missing file, any
other unreadable resource) yields `success=false`, a human-readable
error string, and zeroed dataset metrics, without raising; a dataset
with 0 rows yields exactly the error `"Dataset is empty"` with
`total_rows=0` and `total_columns=0`. -/
theorem c2_full_profile_failure_reports (fail : String → Option String)
    (mc : Nat) (t : Table) (m : String) (h : isEmptyT t = true) :
    generateFullProfile fail (LoadResult.ok t) mc =
      { success := false, error := some "Dataset is empty"
        datasetInfo := { totalRows := 0, totalColumns := 0 }, body := none } ∧
    generateFullProfile fail (LoadResult.notFound m) mc =
      { success := false, error := some "Dataset file not found"
        datasetInfo := { totalRows := 0, totalColumns := 0 }, body := none } ∧
    generateFullProfile fail (LoadResult.failed m) mc =
      { success := false, error := some ("Profiling failed: " ++ m)
        datasetInfo := { totalRows := 0, totalColumns := 0 }, body := none } := by
  refine ⟨?_, rfl, rfl⟩
  simp only [generateFullProfile, h]
  rfl

/-- Witness for C2: the concrete zero-row one-column table (a CSV with a
header line only). -/
theorem c2_full_profile_failure_reports_witness :
    generateFullProfile (fun _ => none) (LoadResult.ok { cols := [("a", [])] }) 50 =
      { success := false, error := some "Dataset is empty"
        datasetInfo := { totalRows := 0, totalColumns := 0 }, body := none } :=
  (c2_full_profile_failure_reports (fun _ => none) 50 { cols := [("a", [])] } "x"
    (by decide)).1

/-- C3 counterexample: `total_columns` does *not* count every column of
the original table.  `generate_full_profile` truncates the table to the
first `max_columns` columns *before* computing `dataset_info`, so a
3-column table profiled with `max_columns=2` reports `total_columns=2`,
not 3. -/
theorem c3_counterexample :
    (generateFullProfile (fun _ => none)
        (LoadResult.ok { cols :=
          [("a", [Cell.num 1]), ("b", [Cell.num 2]), ("c", [Cell.num 3])] })
        2).datasetInfo.totalColumns = 2 ∧
    (Table.mk [("a", [Cell.num 1]), ("b", [Cell.num 2]),
      ("c", [Cell.num 3])]).cols.length = 3 ∧ (2 : Nat) ≠ 3 := by
  refine ⟨?_, by decide, by decide⟩
  rfl

/-- C3 amended: for a non-empty table, columns beyond `max_columns` are
excluded from per-column profiling, and the report's `total_columns` is
the *truncated* column count `min max_columns n` (not the original
count): the profiled columns are exactly the first `max_columns`
columns, in order. -/
theorem c3_column_truncation (fail : String → Option String) (t : Table)
    (mc : Nat) (h : isEmptyT t = false) :
    (generateFullProfile fail (LoadResult.ok t) mc).datasetInfo.totalColumns =
      min mc t.cols.length ∧
    ((generateFullProfile fail (LoadResult.ok t) mc).body.map
        (fun b => b.columnProfiles.length)).getD 0 = min mc t.cols.length ∧
    ((generateFullProfile fail (LoadResult.ok t) mc).body.map
        (fun b => b.columnProfiles.map (fun p => p.columnName))).getD [] =
      (t.cols.take mc).map (fun c => c.1) := by
  simp only [generateFullProfile, h, Bool.false_eq_true, if_false]
  refine ⟨List.length_take .., by simp [List.length_take], ?_⟩
  simp only [Option.map_some', Option.getD_some, List.map_map]
  apply List.map_congr_left
  intro c _
  exact profileColumn_columnName fail c.1 c.2 _

/-- Witness for C3: a 3-column table with `max_columns = 2` profiles
exactly the first two columns and reports `total_columns = 2`. -/
theorem c3_column_truncation_witness :
    (generateFullProfile (fun _ => none)
        (LoadResult.ok { cols :=
          [("a", [Cell.num 1]), ("b", [Cell.num 2]), ("c", [Cell.num 3])] })
        2).datasetInfo.totalColumns = min 2 3 ∧
    ((generateFullProfile (fun _ => none)
        (LoadResult.ok { cols :=
          [("a", [Cell.num 1]), ("b", [Cell.num 2]), ("c", [Cell.num 3])] })
        2).body.map (fun b => b.columnProfiles.length)).getD 0 = min 2 3 ∧
    ((generateFullProfile (fun _ => none)
        (LoadResult.ok { cols :=
          [("a", [Cell.num 1]), ("b", [Cell.num 2]), ("c", [Cell.num 3])] })
        2).body.map (fun b => b.columnProfiles.map (fun p => p.columnName))).getD [] =
      ((Table.mk [("a", [Cell.num 1]), ("b", [Cell.num 2]),
        ("c", [Cell.num 3])]).cols.take 2).map (fun c => c.1) :=
  c3_column_truncation (fun _ => none)
    { cols := [("a", [Cell.num 1]), ("b", [Cell.num 2]), ("c", [Cell.num 3])] }
    2 (by decide)

/-- C4 counterexample: `analyze_column_quality` does *not* define an
empty column as 100% present: for a column with 0 values it returns
`completeness_percentage = 0.0` (the claimed convention, 100% present
when the total is 0, holds only in `get_missing_values_summary`). -/
theorem c4_counterexample :
    (analyzeColumnQuality (fun _ => none) "a" [] none).completenessPercentage = 0 ∧
    ¬ (analyzeColumnQuality (fun _ => none) "a" [] none).completenessPercentage = 100 := by
  constructor <;> decide

/-- C4 amended: every completeness percentage is
`round(count / total * 100, 2)` when the total is positive; for a zero
total, `get_missing_values_summary` yields 100% present / 0% missing,
but `analyze_column_quality` yields `0.0` for its percentages —
including `completeness_percentage = 0.0`, not 100. -/
theorem c4_percentage_formulas (name : String) (cells : List Cell)
    (exp : Option String) (totalRows : Nat) (hc : cells ≠ []) (hr : 0 < totalRows) :
    ((analyzeColumnQuality (fun _ => none) name cells exp).nullPercentage =
      some (roundQ ((nullCountOf cells : Rat) / (cells.length : Rat) * 100)) ∧
     (analyzeColumnQuality (fun _ => none) name cells exp).emptyPercentage =
      some (roundQ ((emptyStringCountOf cells : Rat) / (cells.length : Rat) * 100)) ∧
     (analyzeColumnQuality (fun _ => none) name cells exp).uniquePercentage =
      some (roundQ ((nuniqueOf cells : Rat) / (cells.length : Rat) * 100)) ∧
     (analyzeColumnQuality (fun _ => none) name cells exp).completenessPercentage =
      roundQ (((cells.length : Rat) - (nullCountOf cells : Rat) -
        (emptyStringCountOf cells : Rat)) / (cells.length : Rat) * 100)) ∧
    ((missingEntry name cells totalRows).missingPercentage =
      roundQ (((nullCountOf cells + emptyStringCountOf cells : Nat) : Rat) /
        (totalRows : Rat) * 100) ∧
     (missingEntry name cells totalRows).presentPercentage =
      roundQ (((totalRows : Rat) -
        ((nullCountOf cells + emptyStringCountOf cells : Nat) : Rat)) /
        (totalRows : Rat) * 100)) ∧
    ((analyzeColumnQuality (fun _ => none) name [] exp).completenessPercentage = 0 ∧
     (missingEntry name cells 0).presentPercentage = 100 ∧
     (missingEntry name cells 0).missingPercentage = 0) := by
  have hlen : 0 < cells.length := List.length_pos.mpr hc
  refine ⟨?_, ?_, ?_⟩
  · simp [analyzeColumnQuality, analyzeColumnQualityOk, if_pos hlen]
  · simp only [missingEntry, if_pos hr]
    refine ⟨trivial, ?_⟩
    congr 1
    have h0 : (totalRows : Rat) ≠ 0 := by positivity
    field_simp
    ring
  · refine ⟨?_, ?_, ?_⟩
    · simp [analyzeColumnQuality, analyzeColumnQualityOk, roundQ_zero]
    · simp [missingEntry, roundQ_hundred]
    · simp [missingEntry, roundQ_zero]

/-- Witness for C4 at a concrete column with one null and one empty
string. -/
theorem c4_percentage_formulas_witness :
    ((analyzeColumnQuality (fun _ => none) "a" [Cell.null, Cell.str ""] none).nullPercentage =
      some (roundQ ((nullCountOf [Cell.null, Cell.str ""] : Rat) / 2 * 100)) ∧
     (analyzeColumnQuality (fun _ => none) "a" [Cell.null, Cell.str ""] none).completenessPercentage =
      roundQ ((2 - (nullCountOf [Cell.null, Cell.str ""] : Rat) -
        (emptyStringCountOf [Cell.null, Cell.str ""] : Rat)) / 2 * 100) ∧
     (missingEntry "a" [Cell.null, Cell.str ""] 0).presentPercentage = 100) := by
  have h := c4_percentage_formulas "a" [Cell.null, Cell.str ""] none 2
    (by decide) (by decide)
  refine ⟨?_, ?_, h.2.2.2.1⟩
  · have := h.1.1
    simpa using this
  · have := h.1.2.2.2
    simpa using this

/-- C5 counterexample: the degraded profile of a failed column does
*not* leave every field other than the error marker and `total_values`
absent: `profile_column`'s `except` branch also returns
`data_type="unknown"` and `is_numeric=False` (and
`analyze_column_quality`'s also returns `null_count=0` and
`completeness_percentage=0.0`). -/
theorem c5_counterexample :
    (profileColumn (fun _ => some "boom") "a" [Cell.num 1] none).dataType =
      some "unknown" ∧
    (profileColumn (fun _ => some "boom") "a" [Cell.num 1] none).isNumeric =
      some false ∧
    ¬ (profileColumn (fun _ => some "boom") "a" [Cell.num 1] none).dataType = none := by
  refine ⟨rfl, rfl, by decide⟩

/-- C5 amended: a failure in one column's analysis is confined: the
dataset-level report still succeeds, the failing column's profile is the
degraded record (error marker, `data_type="unknown"`,
`is_numeric=False`, `total_values=0`, every *other* field absent), and
every column whose analysis completes is profiled normally (no error
marker, true `total_values`). -/
theorem c5_column_failure_confinement (fail : String → Option String)
    (t : Table) (mc : Nat) (h : isEmptyT t = false) :
    (generateFullProfile fail (LoadResult.ok t) mc).success = true ∧
    (generateFullProfile fail (LoadResult.ok t) mc).error = none ∧
    ((generateFullProfile fail (LoadResult.ok t) mc).body.map
        (fun b => b.columnProfiles)).getD [] =
      (t.cols.take mc).map
        (fun c => profileColumn fail c.1 c.2 (some (isNumericDtype c.2))) ∧
    (∀ name cells arg e, fail name = some e →
      profileColumn fail name cells arg =
        { columnName := name, error := some e, dataType := some "unknown"
          isNumeric := some false, totalValues := some 0, uniqueCount := none
          nullCount := none, statistics := none, histogram := none
          outliers := none, valueCounts := none }) ∧
    (∀ name cells arg, fail name = none →
      (profileColumn fail name cells arg).error = none ∧
      (profileColumn fail name cells arg).totalValues = some cells.length) := by
  refine ⟨?_, ?_, ?_, ?_, ?_⟩
  · simp only [generateFullProfile, h, Bool.false_eq_true, if_false]
  · simp only [generateFullProfile, h, Bool.false_eq_true, if_false]
  · simp only [generateFullProfile, h, Bool.false_eq_true, if_false,
      Option.map_some', Option.getD_some]
  · intro name cells arg e hf
    simp only [profileColumn, hf]
    rfl
  · intro name cells arg hf
    simp only [profileColumn, hf]
    show (profileColumnOk name cells arg).error = none ∧
      (profileColumnOk name cells arg).totalValues = some cells.length
    unfold profileColumnOk
    dsimp only
    split_ifs <;> exact ⟨rfl, rfl⟩

/-- Witness for C5: a two-column table where the analysis of column `b`
fails and the analysis of column `a` completes. -/
theorem c5_column_failure_confinement_witness :
    (generateFullProfile (fun n => if n = "b" then some "boom" else none)
        (LoadResult.ok { cols := [("a", [Cell.num 1]), ("b", [Cell.num 2])] })
        2).success = true ∧
    profileColumn (fun n => if n = "b" then some "boom" else none) "b"
        [Cell.num 2] (some true) =
      { columnName := "b", error := some "boom", dataType := some "unknown"
        isNumeric := some false, totalValues := some 0, uniqueCount := none
        nullCount := none, statistics := none, histogram := none
        outliers := none, valueCounts := none } ∧
    (profileColumn (fun n => if n = "b" then some "boom" else none) "a"
        [Cell.num 1] (some true)).error = none := by
  have h := c5_column_failure_confinement
    (fun n => if n = "b" then some "boom" else none)
    { cols := [("a", [Cell.num 1]), ("b", [Cell.num 2])] } 2 (by decide)
  exact ⟨h.1, h.2.2.2.1 "b" [Cell.num 2] (some true) "boom" (by decide),
    (h.2.2.2.2 "a" [Cell.num 1] (some true) (by decide)).1⟩
theorem sum_counts_getCategoricalFrequencies (cells : List Cell) (topN : Nat) :
    ((getCategoricalFrequencies cells topN 1).map (fun f => f.count)).sum =
      (nonNullCells cells).length := by
  unfold getCategoricalFrequencies
  by_cases hE : (nonNullCells cells).isEmpty = true
  · rw [if_pos hE]
    rw [List.isEmpty_iff] at hE
    simp [hE]
  · rw [if_neg hE]
    dsimp only
    have hfilter : (valueCountsOf (nonNullCells cells)).filter (fun p => 1 ≤ p.2) =
        valueCountsOf (nonNullCells cells) :=
      List.filter_eq_self.mpr (fun p hp => by
        simpa using pos_of_mem_valueCountsOf hp)
    rw [hfilter]
    have hsum := sum_counts_valueCountsOf (nonNullCells cells)
    have hS : (((valueCountsOf (nonNullCells cells)).take topN).map
        (fun p => p.2)).sum ≤ (nonNullCells cells).length := by
      rw [← hsum]
      exact List.Sublist.sum_le_sum
        ((List.take_sublist _ _).map _) (fun a _ => Nat.zero_le a)
    by_cases hU : topN < (uniqueInOrder (nonNullCells cells)).length
    · rw [if_pos hU]
      have hdc :
          ((((valueCountsOf (nonNullCells cells)).take topN).map
            (fun p => ({ value := cellToString p.1
                         count := p.2
                         percentage := roundQ ((p.2 : Rat) /
                           ((nonNullCells cells).length : Rat) * 100) } : FreqEntry))).map
            (fun f => f.count)).sum =
          (((valueCountsOf (nonNullCells cells)).take topN).map
            (fun p => p.2)).sum := by
        rw [List.map_map]
        rfl
      split_ifs with hO
      · simp only [List.map_append, List.map_cons, List.map_nil,
          List.sum_append, List.sum_cons, List.sum_nil]
        omega
      · omega
    · rw [if_neg hU]
      have hlen : (valueCountsOf (nonNullCells cells)).length ≤ topN := by
        rw [length_valueCountsOf]
        omega
      rw [List.take_of_length_le hlen, List.map_map]
      exact hsum

theorem pos_counts_getCategoricalFrequencies (cells : List Cell)
    (topN minF : Nat) :
    ∀ f ∈ getCategoricalFrequencies cells topN minF, 0 < f.count := by
  intro f hf
  unfold getCategoricalFrequencies at hf
  by_cases hE : (nonNullCells cells).isEmpty = true
  · rw [if_pos hE] at hf
    cases hf
  · rw [if_neg hE] at hf
    dsimp only at hf
    by_cases hU : topN < (uniqueInOrder (nonNullCells cells)).length
    · rw [if_pos hU] at hf
      split_ifs at hf with hO
      · rcases List.mem_append.mp hf with h | h
        · rcases List.mem_map.mp h with ⟨p, hp, rfl⟩
          exact pos_of_mem_valueCountsOf
            (List.mem_of_mem_filter (List.mem_of_mem_take hp))
        · rcases List.mem_singleton.mp h with rfl
          exact hO
      · rcases List.mem_map.mp hf with ⟨p, hp, rfl⟩
        exact pos_of_mem_valueCountsOf
          (List.mem_of_mem_filter (List.mem_of_mem_take hp))
    · rw [if_neg hU] at hf
      rcases List.mem_map.mp hf with ⟨p, hp, rfl⟩
      exact pos_of_mem_valueCountsOf
        (List.mem_of_mem_filter (List.mem_of_mem_take hp))

/-- C7 counterexample: with a `min_frequency` above 1, the returned
counts need not account for the non-null values: for the column
`["a","a","b"]` with `top_n=15`, `min_frequency=2`, the value `"b"`
falls below the frequency threshold, only 2 distinct values exist (no
`"Other"` bucket is considered), and the returned counts sum to 2 while
the column has 3 non-null values. -/
theorem c7_counterexample :
    ((getCategoricalFrequencies [Cell.str "a", Cell.str "a", Cell.str "b"] 15 2).map
      (fun f => f.count)).sum = 2 ∧
    (nonNullCells [Cell.str "a", Cell.str "a", Cell.str "b"]).length = 3 ∧
    (2 : Nat) ≠ 3 := by
  refine ⟨by decide, by decide, by decide⟩

/-- C7 amended: with the default `min_frequency = 1` the claim holds:
the returned counts (the `"Other"` bucket included, when present) sum
exactly to the column non-null value count for every column and every
`top_n`; and every returned entry — in particular any `"Other"` bucket —
has a positive count for every configuration, so a zero residual never
produces an `"Other"` entry.  With `min_frequency > 1` the sum property
fails (see the counterexample). -/
theorem c7_frequency_counts (cells : List Cell) (topN : Nat) :
    ((getCategoricalFrequencies cells topN 1).map (fun f => f.count)).sum =
      (nonNullCells cells).length ∧
    ∀ minF : Nat, (getCategoricalFrequencies cells topN minF).Forall
      (fun f => 0 < f.count) := by
  refine ⟨sum_counts_getCategoricalFrequencies cells topN, fun minF => ?_⟩
  exact List.forall_iff_forall_mem.mpr
    (pos_counts_getCategoricalFrequencies cells topN minF)

/-- C6: the recommendation list is the concatenation, in the fixed order
missing-values, outliers, type-inconsistencies, invalid-values,
low-completeness, of the messages of the rules that trigger; the
low-completeness message names at most the first 3 columns with
completeness below 50 in stable left-to-right column order; and the
single "quality is good" message is emitted exactly when none of the
other rules triggered. -/
theorem c6_recommendation_rules (reports : List ColQuality) (issues : Issues) :
    generateRecommendations reports issues =
      (if 0 < issues.missingValues then
        ["Found " ++ toString issues.missingValues ++
          " missing values. Consider imputation or removing incomplete rows."]
      else []) ++
      (if 0 < issues.outliers then
        ["Detected " ++ toString issues.outliers ++
          " outliers across numeric columns. Review and validate extreme values."]
      else []) ++
      (if 0 < issues.typeInconsistencies then
        ["Found " ++ toString issues.typeInconsistencies ++
          " columns with type inconsistencies. Verify data types match expectations."]
      else []) ++
      (if 0 < issues.invalidValues then
        ["Found " ++ toString issues.invalidValues ++
          " invalid values. Clean or standardize data format."]
      else []) ++
      (if (reports.filter (fun c => c.completenessPercentage < 50)).map
            (fun c => c.columnName) ≠ [] then
        ["Columns with <50% completeness: " ++
          String.intercalate ", "
            (((reports.filter (fun c => c.completenessPercentage < 50)).map
              (fun c => c.columnName)).take 3) ++
          ". Consider removing or imputing these columns."]
      else []) ++
      (if issues.missingValues = 0 ∧ issues.outliers = 0 ∧
          issues.typeInconsistencies = 0 ∧ issues.invalidValues = 0 ∧
          (reports.filter (fun c => c.completenessPercentage < 50)).map
            (fun c => c.columnName) = [] then
        ["Dataset quality is good. No major issues detected."]
      else []) := by
  unfold generateRecommendations
  split_ifs <;> simp_all [List.isEmpty_iff]

/-- C1 amended: the dataset-level quality score equals
`(total_cells - (missing_values + invalid_values)) / total_cells * 100`
rounded to 2 decimals (`100.0` when `total_cells = 0`); it is always at
most 100, equals exactly 100 when `missing_values = 0` and
`invalid_values = 0`, and is nonnegative whenever
`missing_values + invalid_values ≤ total_cells` (which can fail, since
empty-string cells are double-counted — see the counterexample, where
the score is -100). -/
theorem c1_quality_score (fail expT : String → Option String) (t : Table) :
    ((advancedQualityReport fail expT t).qualityScore =
      if (advancedQualityReport fail expT t).datasetMetrics.totalCells = 0 then 100
      else roundQ
        ((((advancedQualityReport fail expT t).datasetMetrics.totalCells : Rat) -
          (((advancedQualityReport fail expT t).issuesSummary.missingValues +
            (advancedQualityReport fail expT t).issuesSummary.invalidValues : Nat) : Rat)) /
          ((advancedQualityReport fail expT t).datasetMetrics.totalCells : Rat) * 100)) ∧
    (advancedQualityReport fail expT t).qualityScore ≤ 100 ∧
    ((advancedQualityReport fail expT t).issuesSummary.missingValues = 0 →
      (advancedQualityReport fail expT t).issuesSummary.invalidValues = 0 →
      (advancedQualityReport fail expT t).qualityScore = 100) ∧
    ((advancedQualityReport fail expT t).issuesSummary.missingValues +
        (advancedQualityReport fail expT t).issuesSummary.invalidValues ≤
        (advancedQualityReport fail expT t).datasetMetrics.totalCells →
      0 ≤ (advancedQualityReport fail expT t).qualityScore) := by
  have hqs : (advancedQualityReport fail expT t).qualityScore =
      if 0 < (advancedQualityReport fail expT t).datasetMetrics.totalCells then
        roundQ ((((advancedQualityReport fail expT t).datasetMetrics.totalCells : Rat) -
          (((advancedQualityReport fail expT t).issuesSummary.missingValues +
            (advancedQualityReport fail expT t).issuesSummary.invalidValues : Nat) : Rat)) /
          ((advancedQualityReport fail expT t).datasetMetrics.totalCells : Rat) * 100)
      else roundQ 100 := rfl
  set c := (advancedQualityReport fail expT t).datasetMetrics.totalCells with hc
  set m := (advancedQualityReport fail expT t).issuesSummary.missingValues with hm
  set i := (advancedQualityReport fail expT t).issuesSummary.invalidValues with hi
  have harg : ∀ hcpos : 0 < c, (((c : Rat) - ((m + i : Nat) : Rat)) / (c : Rat) * 100) ≤ 100 := by
    intro hcpos
    have hc0 : (0 : Rat) < (c : Rat) := by exact_mod_cast hcpos
    have h1 : ((c : Rat) - ((m + i : Nat) : Rat)) / (c : Rat) ≤ 1 := by
      rw [div_le_one hc0]
      have : (0 : Rat) ≤ ((m + i : Nat) : Rat) := by positivity
      linarith
    calc ((c : Rat) - ((m + i : Nat) : Rat)) / (c : Rat) * 100 ≤ 1 * 100 :=
      mul_le_mul_of_nonneg_right h1 (by norm_num)
    _ = 100 := by norm_num
  refine ⟨?_, ?_, ?_, ?_⟩
  · rw [hqs]
    by_cases h0 : c = 0
    · rw [if_pos h0, if_neg (by omega), roundQ_hundred]
    · rw [if_neg h0, if_pos (Nat.pos_of_ne_zero h0)]
  · rw [hqs]
    split_ifs with h0
    · exact roundQ_le_hundred (harg h0)
    · rw [roundQ_hundred]
  · intro h1 h2
    rw [hqs]
    split_ifs with h0
    · have hc0 : (0 : Rat) < (c : Rat) := by exact_mod_cast h0
      have hval : ((c : Rat) - ((m + i : Nat) : Rat)) / (c : Rat) * 100 = 100 := by
        rw [h1, h2]
        push_cast
        field_simp
      rw [hval, roundQ_hundred]
    · rw [roundQ_hundred]
  · intro hle
    rw [hqs]
    split_ifs with h0
    · apply roundQ_nonneg
      have hc0 : (0 : Rat) < (c : Rat) := by exact_mod_cast h0
      have hnum : (0 : Rat) ≤ (c : Rat) - ((m + i : Nat) : Rat) := by
        have : ((m + i : Nat) : Rat) ≤ (c : Rat) := by exact_mod_cast hle
        linarith
      positivity
    · rw [roundQ_hundred]
      norm_num

/-- Witness for C1 at a one-cell numeric table: no missing or invalid
values, so the score is exactly 100 (and at most 100). -/
theorem c1_quality_score_witness :
    (advancedQualityReport (fun _ => none) (fun _ => none)
      { cols := [("a", [Cell.num 1])] }).qualityScore = 100 ∧
    (advancedQualityReport (fun _ => none) (fun _ => none)
      { cols := [("a", [Cell.num 1])] }).qualityScore ≤ 100 := by
  have h := c1_quality_score (fun _ => none) (fun _ => none)
    { cols := [("a", [Cell.num 1])] }
  exact ⟨h.2.2.1 (by decide) (by decide), h.2.1⟩

/-- C8 counterexample: non-finite floats *can* reach the serialization
boundary.  A numeric column loaded from a CSV holding `1` and `inf` has
coerced values `[1, inf]`; `detect_outliers_iqr` then computes
`Q1 = Q3 = inf`, `IQR = inf - inf = nan`, and returns
`lower_bound = nan` — a non-finite value placed, unsanitized, in the
returned report dict. -/
theorem c8_counterexample :
    (detectOutliersIqrX [XF.fin 1, XF.pinf] (3/2)).lowerBound = some XF.nan ∧
    XF.nan.isFinite = false := by
  constructor <;> decide

/-- C8 amended: the non-finite-to-null rewriting exists only in
`CSVParser._sanitize_records`, which is applied to the CSV preview
records alone: every value in its output is null, text, or a finite
float.  The profiling and quality reports are not passed through any
sanitizer and can carry non-finite values (see the counterexample). -/
theorem c8_sanitized_records_finite (records : List (List (String × JVal))) :
    (sanitizeRecords records).Forall
      (fun row => row.Forall (fun kv => kv.2.isFiniteSafe = true)) := by
  rw [List.forall_iff_forall_mem]
  intro row hrow
  rw [List.forall_iff_forall_mem]
  intro kv hkv
  unfold sanitizeRecords at hrow
  rcases List.mem_map.mp hrow with ⟨row₀, _, rfl⟩
  rcases List.mem_map.mp hkv with ⟨kv₀, _, rfl⟩
  rcases kv₀ with ⟨k, v⟩
  cases v with
  | null => rfl
  | str s => rfl
  | num x =>
    dsimp only
    split_ifs with hf
    · exact hf
    · rfl

/-- C10: in an object-dtype column, every empty-string cell is counted
both in `empty_string_count` and in `invalid_count` (it is non-null and
fails numeric coercion), so `empty_string_count ≤ invalid_count`; and
for the one-cell table holding only the empty string the aggregated
`missing_values + invalid_values = 2` exceeds the single affected cell
(`total_cells = 1`). -/
theorem c10_empty_string_double_count (name : String) (cells : List Cell)
    (exp : Option String) (h : isObjectDtype cells = true) :
    (analyzeColumnQuality (fun _ => none) name cells exp).emptyStringCount.getD 0 ≤
      (analyzeColumnQuality (fun _ => none) name cells exp).invalidCount.getD 0 ∧
    (advancedQualityReport (fun _ => none) (fun _ => none)
      { cols := [("a", [Cell.str ""])] }).issuesSummary.missingValues = 1 ∧
    (advancedQualityReport (fun _ => none) (fun _ => none)
      { cols := [("a", [Cell.str ""])] }).issuesSummary.invalidValues = 1 ∧
    (advancedQualityReport (fun _ => none) (fun _ => none)
      { cols := [("a", [Cell.str ""])] }).datasetMetrics.totalCells = 1 ∧
    1 + 1 > 1 := by
  refine ⟨?_, by decide, by decide, by decide, by decide⟩
  show emptyStringCountOf cells ≤ invalidCountOf cells
  unfold emptyStringCountOf invalidCountOf
  rw [if_pos h, if_pos h]
  apply List.countP_mono_left
  intro c _ hcp
  have hc : c = Cell.str "" := by simpa using hcp
  subst hc
  decide

/-- Witness for C10 at the one-cell empty-string column. -/
theorem c10_empty_string_double_count_witness :
    (analyzeColumnQuality (fun _ => none) "a" [Cell.str ""] none).emptyStringCount.getD 0 ≤
      (analyzeColumnQuality (fun _ => none) "a" [Cell.str ""] none).invalidCount.getD 0 ∧
    (advancedQualityReport (fun _ => none) (fun _ => none)
      { cols := [("a", [Cell.str ""])] }).issuesSummary.missingValues = 1 :=
  have h := c10_empty_string_double_count "a" [Cell.str ""] none (by decide)
  ⟨h.1, h.2.1⟩
